import Mathlib

/-!
# Verification of the condor-hunter screening and backtesting core

A shallow embedding, in Lean 4, of the parts of the `condor_screener`
Python package that the checked claims are about:

* the data model (`condor_screener/models/option.py`,
  `condor_screener/models/iron_condor.py`),
* the candidate generator (`condor_screener/builders/condor_builder.py`),
* the backtest simulator (`condor_screener/backtest/simulator.py`),
* the performance aggregator (`condor_screener/backtest/metrics.py`),
* the earnings-edge analyzer (`condor_screener/backtest/earnings_analyzer.py`).

Modelling conventions:

* Python floats are modelled as exact rationals (`ℚ`); the claims under
  check are about comparisons and linear arithmetic on these quantities,
  which the embedding preserves.
* Calendar dates are modelled as integers (day numbers); `d2 - d1` is
  the Python `(date2 - date1).days`.
* `date.today()`, which Python reads implicitly in the `Option.dte`
  property, is passed around explicitly as a `today : ℤ` parameter.
* Python dictionaries keyed by floats are modelled as association lists
  in insertion order (first insertion fixes the position, later writes
  to the same key replace the value), matching CPython iteration order.
* The source class `Option` is named `Contract` here (the spec's name
  for it) because `Option` is taken by Lean's core library.
* `math.sqrt` appears only in the Sharpe/Sortino ratios and in the
  t-test of the analyzer.  The ratios are embedded with `Real.sqrt`
  (their guard `std == 0` is replaced by the equivalent exact test
  `variance = 0`); the t-test only ever *compares* the square root
  against nonnegative constant thresholds, so it is embedded by
  comparing the squares, an exact, equivalent reformulation.
-/

namespace CondorHunter

/-- Option type of a contract (`option_type: Literal["call", "put"]`). -/
inductive OptionType where
  | call
  | put
deriving DecidableEq

/-- One option contract.  Embeds the dataclass `Option` of
`condor_screener/models/option.py` (renamed: `Option` is taken in Lean).
The optional fields `last`/`gamma`/`theta`/`vega` are carried for
completeness; nothing under check reads them. -/
structure Contract where
  ticker : String
  strike : ℚ
  expiration : ℤ
  option_type : OptionType
  bid : ℚ
  ask : ℚ
  volume : ℤ
  open_interest : ℤ
  delta : ℚ
  implied_vol : ℚ
  last : Option ℚ := none
  gamma : Option ℚ := none
  theta : Option ℚ := none
  vega : Option ℚ := none
deriving DecidableEq

/-- `Option.mid`: mid price between bid and ask. -/
def Contract.mid (o : Contract) : ℚ := (o.bid + o.ask) / 2

/-- `Option.dte`: days to expiration from today; `today` is the implicit
`date.today()` of the Python property, made explicit. -/
def Contract.dte (o : Contract) (today : ℤ) : ℤ := o.expiration - today

/-- The four-leg iron condor record of
`condor_screener/models/iron_condor.py` (fields only; the `__post_init__`
invariants are the separate predicate `structurallyValid`, because the
builder constructs candidates inside `try/except` and treats a failed
construction as an expected filtering outcome). -/
structure IronCondor where
  ticker : String
  expiration : ℤ
  short_put : Contract
  long_put : Contract
  short_call : Contract
  long_call : Contract
deriving DecidableEq

/-- `IronCondor.__post_init__`: the structural invariants whose violation
raises `ValueError` at construction. -/
def IronCondor.structurallyValid (ic : IronCondor) : Prop :=
  ic.short_put.ticker = ic.ticker ∧ ic.long_put.ticker = ic.ticker ∧
  ic.short_call.ticker = ic.ticker ∧ ic.long_call.ticker = ic.ticker ∧
  ic.short_put.expiration = ic.expiration ∧ ic.long_put.expiration = ic.expiration ∧
  ic.short_call.expiration = ic.expiration ∧ ic.long_call.expiration = ic.expiration ∧
  ic.short_put.option_type = OptionType.put ∧ ic.long_put.option_type = OptionType.put ∧
  ic.short_call.option_type = OptionType.call ∧ ic.long_call.option_type = OptionType.call ∧
  ic.long_put.strike < ic.short_put.strike ∧
  ic.short_call.strike < ic.long_call.strike ∧
  ic.short_put.strike < ic.short_call.strike

instance (ic : IronCondor) : Decidable ic.structurallyValid := by
  unfold IronCondor.structurallyValid; infer_instance

/-- `IronCondor.net_credit`. -/
def IronCondor.net_credit (ic : IronCondor) : ℚ :=
  (ic.short_put.mid - ic.long_put.mid) + (ic.short_call.mid - ic.long_call.mid)

/-- `IronCondor.max_profit` (equals the net credit). -/
def IronCondor.max_profit (ic : IronCondor) : ℚ := ic.net_credit

/-- `IronCondor.put_side_width`. -/
def IronCondor.put_side_width (ic : IronCondor) : ℚ :=
  ic.short_put.strike - ic.long_put.strike

/-- `IronCondor.call_side_width`. -/
def IronCondor.call_side_width (ic : IronCondor) : ℚ :=
  ic.long_call.strike - ic.short_call.strike

/-- `IronCondor.max_loss_put_side`. -/
def IronCondor.max_loss_put_side (ic : IronCondor) : ℚ :=
  ic.put_side_width - ic.net_credit

/-- `IronCondor.max_loss_call_side`. -/
def IronCondor.max_loss_call_side (ic : IronCondor) : ℚ :=
  ic.call_side_width - ic.net_credit

/-- `IronCondor.max_loss`: the larger of the two wing losses. -/
def IronCondor.max_loss (ic : IronCondor) : ℚ :=
  max ic.max_loss_put_side ic.max_loss_call_side

/-! ## Candidate generator (`condor_screener/builders/condor_builder.py`) -/

/-- `StrategyConfig` of the builder, with the constructor defaults. -/
structure StrategyConfig where
  min_dte : ℤ
  max_dte : ℤ
  min_delta : ℚ
  max_delta : ℚ
  wing_width_put : ℚ
  wing_width_call : ℚ
  allow_asymmetric : Bool
deriving DecidableEq

/-- One Python-dict write `d[k] = v` on a float-keyed dict modelled as an
association list: an existing key keeps its position and gets the new
value, a fresh key is appended. -/
def dictWrite (m : List (ℚ × Contract)) (k : ℚ) (v : Contract) : List (ℚ × Contract) :=
  if k ∈ m.map Prod.fst then
    m.map (fun p => if p.1 = k then (k, v) else p)
  else
    m ++ [(k, v)]

/-- `{opt.strike: opt for opt in opts}`: the strike-indexed dict built by
`_generate_condors_for_expiration`. -/
def strikeDict (opts : List Contract) : List (ℚ × Contract) :=
  opts.foldl (fun m o => dictWrite m o.strike o) []

/-- The exact-key lookup `if target_strike in strikes_dict: return
strikes_dict[target_strike]` of `_find_strike`. -/
def lookupExact : List (ℚ × Contract) → ℚ → Option Contract
  | [], _ => none
  | p :: rest, t => if p.1 = t then some p.2 else lookupExact rest t

/-- The fallback loop of `_find_strike`: iterate the dict items in order
and return the first option whose strike is within tolerance of the
target (note: the first such item in iteration order, whatever its
distance, not the nearest). -/
def lookupWithinTolerance : List (ℚ × Contract) → ℚ → ℚ → Option Contract
  | [], _, _ => none
  | p :: rest, t, tol =>
    if |p.1 - t| ≤ tol then some p.2 else lookupWithinTolerance rest t tol

/-- `_find_strike(strikes_dict, target_strike, tolerance)`. -/
def findStrike (d : List (ℚ × Contract)) (target tol : ℚ) : Option Contract :=
  match lookupExact d target with
  | some o => some o
  | none => lookupWithinTolerance d target tol

/-- `_is_valid_condor`: the post-construction filter (credit, risk and
no-arbitrage checks), written as the negations of the three early
`return False` conditions. -/
def isValidCondor (ic : IronCondor) : Prop :=
  ¬ ic.net_credit ≤ 0 ∧
  ¬ ic.max_loss ≤ 0 ∧
  ¬ (ic.put_side_width ≤ ic.max_profit ∨ ic.call_side_width ≤ ic.max_profit)

instance (ic : IronCondor) : Decidable (isValidCondor ic) := by
  unfold isValidCondor; infer_instance

/-- `_generate_condors_for_expiration`: all condors yielded for one
expiration bucket, in yield order.  The `try: IronCondor(...)
except ValueError: continue` of the source is the `structurallyValid`
conjunct of the final filter. -/
def generateCondorsForExpiration (options : List Contract) (expiration : ℤ)
    (config : StrategyConfig) : List IronCondor :=
  let puts := options.filter (fun o => decide (o.option_type = OptionType.put))
  let calls := options.filter (fun o => decide (o.option_type = OptionType.call))
  if puts = [] ∨ calls = [] then [] else
  let puts_by_strike := strikeDict puts
  let calls_by_strike := strikeDict calls
  let short_puts := puts.filter
    (fun p => decide (-config.max_delta ≤ p.delta ∧ p.delta ≤ -config.min_delta))
  let short_calls := calls.filter
    (fun c => decide (config.min_delta ≤ c.delta ∧ c.delta ≤ config.max_delta))
  short_puts.flatMap (fun short_put =>
    match findStrike puts_by_strike (short_put.strike - config.wing_width_put) (1/2) with
    | none => []
    | some long_put =>
      short_calls.filterMap (fun short_call =>
        match findStrike calls_by_strike (short_call.strike + config.wing_width_call) (1/2) with
        | none => none
        | some long_call =>
          let ic : IronCondor :=
            ⟨short_put.ticker, expiration, short_put, long_put, short_call, long_call⟩
          if ic.structurallyValid ∧ isValidCondor ic then some ic else none))

/-- The keys of a Python dict built by appending values to
`defaultdict(list)` buckets: distinct values in order of first
appearance (used for `_group_by_expiration`). -/
def expirationKeys (opts : List Contract) : List ℤ :=
  opts.foldl (fun acc o => if o.expiration ∈ acc then acc else acc ++ [o.expiration]) []

/-- `generate_iron_condors`: DTE filter, grouping by expiration
(`_group_by_expiration` bucket `e` is the sublist of options with
expiration `e`, in input order), then per-expiration generation. -/
def generateIronCondors (options : List Contract) (config : StrategyConfig)
    (today : ℤ) : List IronCondor :=
  let valid := options.filter
    (fun o => decide (config.min_dte ≤ o.dte today ∧ o.dte today ≤ config.max_dte))
  if valid = [] then [] else
  (expirationKeys valid).flatMap (fun e =>
    generateCondorsForExpiration (valid.filter (fun o => decide (o.expiration = e))) e config)

/-! ## Backtest simulator (`condor_screener/backtest/simulator.py`) -/

/-- `ExitRule` with the dataclass defaults recorded in
`defaultExitRule` below. -/
structure ExitRule where
  profit_target_pct : ℚ
  stop_loss_pct : ℚ
  min_dte_to_close : ℤ
  close_before_earnings_days : ℤ
deriving DecidableEq

/-- The dataclass default values of `ExitRule`. -/
def defaultExitRule : ExitRule :=
  ⟨1/2, 1, 21, 3⟩

/-- The `exit_reason` strings of `BacktestResult`. -/
inductive ExitReason where
  | profit_target
  | stop_loss
  | min_dte
  | earnings
  | expiration
deriving DecidableEq

/-- The `earnings_date: Optional[str]` argument of
`simulate_iron_condor`: `noDate` is `None` (or an empty, falsy string),
`malformed` a truthy string `date.fromisoformat` rejects, `onDate d` a
truthy string parsing to day `d`. -/
inductive EarningsInput where
  | noDate
  | malformed
  | onDate (d : ℤ)
deriving DecidableEq

/-- The `had_earnings` computation at the top of `simulate_iron_condor`:
parse failure is logged and treated as no earnings. -/
def hadEarningsFlag (e : EarningsInput) (entry_date expiration : ℤ) : Bool :=
  match e with
  | .onDate d => decide (entry_date ≤ d ∧ d ≤ expiration)
  | _ => false

/-- `_estimate_position_value(iron_condor, price, dte)`: heuristic
current value; `today` makes the `date.today()` inside
`iron_condor.short_put.dte` explicit. -/
def estimatePositionValue (ic : IronCondor) (price : ℚ) (dte : ℤ) (today : ℤ) : ℚ :=
  let short_put := ic.short_put.strike
  let short_call := ic.short_call.strike
  let long_put := ic.long_put.strike
  let long_call := ic.long_call.strike
  let max_profit := ic.max_profit
  let max_loss := ic.max_loss
  let initial_dte := ic.short_put.dte today
  if short_put < price ∧ price < short_call then
    let time_factor : ℚ := (dte : ℚ) / ((max initial_dte 1 : ℤ) : ℚ)
    max_profit * time_factor * (3/10)
  else if price ≤ short_put then
    min ((max 0 (short_put - price) - max 0 (long_put - price)) * 100) max_loss
  else if short_call ≤ price then
    min ((max 0 (price - short_call) - max 0 (price - long_call)) * 100) max_loss
  else
    max_profit * (1/2)

/-- `_estimate_exit_cost(iron_condor, price, dte, pct_of_max)`; the
`price` and `dte` arguments are unused in the source too. -/
def estimateExitCost (ic : IronCondor) (_price : ℚ) (_dte : ℤ) (pct_of_max : ℚ) : ℚ :=
  ic.max_profit * pct_of_max

/-- `_calculate_expiration_value(iron_condor, final_price)`: intrinsic
value at expiration. -/
def calculateExpirationValue (ic : IronCondor) (final_price : ℚ) : ℚ :=
  let short_put := ic.short_put.strike
  let short_call := ic.short_call.strike
  let long_put := ic.long_put.strike
  let long_call := ic.long_call.strike
  if short_put < final_price ∧ final_price < short_call then 0
  else if final_price ≤ short_put then
    (max 0 (short_put - final_price) - max 0 (long_put - final_price)) * 100
  else if short_call ≤ final_price then
    (max 0 (final_price - short_call) - max 0 (final_price - long_call)) * 100
  else 0

/-- Rule 1 of the simulator loop: `if earnings_date and
exit_rule.close_before_earnings_days > 0: try: ... except ValueError:
pass`.  A malformed date never fires the rule. -/
def earningsRuleFires (earn : EarningsInput) (rule : ExitRule) (dt : ℤ) : Bool :=
  match earn with
  | .onDate d =>
    decide (0 < rule.close_before_earnings_days ∧
            0 ≤ d - dt ∧ d - dt ≤ rule.close_before_earnings_days)
  | _ => false

/-- The `for dt, price in price_path` loop of `simulate_iron_condor`:
`some (dt, reason, cost)` when an exit rule fires on sampled day `dt`,
`none` when the loop runs off the path (or breaks past expiration)
without firing, leaving `exit_reason = 'expiration'`. -/
def runPath (ic : IronCondor) (entry_date : ℤ) (rule : ExitRule)
    (earn : EarningsInput) (today : ℤ) :
    List (ℤ × ℚ) → Option (ℤ × ExitReason × ℚ)
  | [] => none
  | (dt, price) :: rest =>
    if dt < entry_date then runPath ic entry_date rule earn today rest
    else if ic.expiration < dt then none
    else
      let days_to_exp := ic.expiration - dt
      if earningsRuleFires earn rule dt then
        some (dt, .earnings, estimateExitCost ic price days_to_exp (3/10))
      else if days_to_exp ≤ rule.min_dte_to_close then
        some (dt, .min_dte, estimateExitCost ic price days_to_exp (1/4))
      else
        let current_value := estimatePositionValue ic price days_to_exp today
        let current_pnl := ic.net_credit - current_value
        if ic.max_profit * rule.profit_target_pct ≤ current_pnl then
          some (dt, .profit_target, current_value)
        else if current_pnl ≤ -(ic.max_loss * rule.stop_loss_pct) then
          some (dt, .stop_loss, current_value)
        else runPath ic entry_date rule earn today rest

/-- `BacktestResult`. -/
structure BacktestResult where
  iron_condor : IronCondor
  entry_date : ℤ
  exit_date : ℤ
  exit_reason : ExitReason
  entry_credit : ℚ
  exit_cost : ℚ
  realized_pnl : ℚ
  max_profit : ℚ
  max_loss : ℚ
  return_pct : ℚ
  days_held : ℤ
  is_winner : Bool
  had_earnings : Bool
deriving DecidableEq

/-- `simulate_iron_condor`: one full simulation.  When no exit rule fires
the position is priced at expiration from `price_path[-1]` (`0.0` for an
empty path, exactly as in the source). -/
def simulate_iron_condor (ic : IronCondor) (entry_date : ℤ) (exit_rule : ExitRule)
    (price_path : List (ℤ × ℚ)) (earnings_date : EarningsInput) (today : ℤ) :
    BacktestResult :=
  let entry_credit := ic.net_credit
  let max_profit := ic.max_profit
  let max_loss := ic.max_loss
  let had_earnings := hadEarningsFlag earnings_date entry_date ic.expiration
  let fired := runPath ic entry_date exit_rule earnings_date today price_path
  let exit_date := match fired with | some (d, _, _) => d | none => ic.expiration
  let exit_reason := match fired with | some (_, r, _) => r | none => .expiration
  let final_price := match price_path.getLast? with | some p => p.2 | none => 0
  let exit_cost := match fired with
    | some (_, _, c) => c
    | none => calculateExpirationValue ic final_price
  let realized_pnl := entry_credit - exit_cost
  let return_pct := if 0 < max_loss then realized_pnl / max_loss * 100 else 0
  let days_held := exit_date - entry_date
  ⟨ic, entry_date, exit_date, exit_reason, entry_credit, exit_cost, realized_pnl,
   max_profit, max_loss, return_pct, days_held, decide (0 < realized_pnl), had_earnings⟩

/-! ## Performance aggregator (`condor_screener/backtest/metrics.py`) -/

/-- `PerformanceMetrics`. -/
structure PerformanceMetrics where
  total_trades : ℕ
  winners : ℕ
  losers : ℕ
  win_rate : ℚ
  avg_return_pct : ℚ
  avg_winner_pct : ℚ
  avg_loser_pct : ℚ
  total_pnl : ℚ
  max_drawdown_pct : ℚ
  sharpe_ratio : ℝ
  sortino_ratio : ℝ
  profit_factor : ℚ
  avg_days_held : ℚ
  best_trade_pct : ℚ
  worst_trade_pct : ℚ

/-- Python `max(xs)` on a nonempty list, with the source's `if xs else
0.0` fallback inlined at the call sites via this total version. -/
def pyMax : List ℚ → ℚ
  | [] => 0
  | x :: xs => xs.foldl max x

/-- Python `min(xs)`, as `pyMax`. -/
def pyMin : List ℚ → ℚ
  | [] => 0
  | x :: xs => xs.foldl min x

/-- `_calculate_max_drawdown`: chronological walk (stable sort by exit
date, as Python `sorted`) of cumulative P&L against its running peak. -/
def calculateMaxDrawdown (results : List BacktestResult) : ℚ :=
  if results = [] then 0 else
  let sorted_results := results.mergeSort (fun a b => decide (a.exit_date ≤ b.exit_date))
  (sorted_results.foldl
    (fun (st : ℚ × ℚ × ℚ) r =>
      let cumulative_pnl := st.1 + r.realized_pnl
      let peak := if st.2.1 < cumulative_pnl then cumulative_pnl else st.2.1
      let max_dd :=
        if 0 < peak then max st.2.2 ((peak - cumulative_pnl) / peak * 100) else st.2.2
      (cumulative_pnl, peak, max_dd))
    (0, 0, 0)).2.2

/-- `_calculate_sharpe_ratio(returns, risk_free_rate)`.  The source's
`std_dev == 0` guard is the equivalent exact test `variance = 0`
(the sample variance is nonnegative, and `math.sqrt v = 0` iff
`v = 0`). -/
noncomputable def calculateSharpeRatio (returns : List ℚ) (risk_free_rate : ℚ) : ℝ :=
  if returns.length < 2 then 0 else
  let avg_return := returns.sum / (returns.length : ℚ)
  let variance := ((returns.map (fun r => (r - avg_return) ^ 2)).sum) / ((returns.length : ℚ) - 1)
  if variance = 0 then 0
  else ((avg_return - risk_free_rate : ℚ) : ℝ) / Real.sqrt (variance : ℝ) * Real.sqrt 10

/-- `_calculate_sortino_ratio(returns, risk_free_rate)`: denominator is
the population deviation of the negative returns only; with no losing
trade the source returns the capped sentinel `10.0` before any
division. -/
noncomputable def calculateSortinoRatio (returns : List ℚ) (risk_free_rate : ℚ) : ℝ :=
  if returns.length < 2 then 0 else
  let avg_return := returns.sum / (returns.length : ℚ)
  let downside_returns := returns.filter (fun r => decide (r < 0))
  if downside_returns = [] then 10 else
  let downside_variance :=
    ((downside_returns.map (fun r => (r - 0) ^ 2)).sum) / (downside_returns.length : ℚ)
  if downside_variance = 0 then 10
  else ((avg_return - risk_free_rate : ℚ) : ℝ) / Real.sqrt (downside_variance : ℝ) * Real.sqrt 10

/-- `calculate_metrics(results)`: the full aggregation, empty input
mapped to the all-zero record as in the source. -/
noncomputable def calculate_metrics (results : List BacktestResult) : PerformanceMetrics :=
  if results = [] then
    ⟨0, 0, 0, 0, 0, 0, 0, 0, 0, 0, 0, 0, 0, 0, 0⟩
  else
    let total_trades := results.length
    let winners := (results.filter (fun r => r.is_winner)).length
    let losers := total_trades - winners
    let win_rate : ℚ :=
      if 0 < total_trades then (winners : ℚ) / (total_trades : ℚ) * 100 else 0
    let returns := results.map (fun r => r.return_pct)
    let avg_return_pct := if returns = [] then 0 else returns.sum / (returns.length : ℚ)
    let winner_returns := (results.filter (fun r => r.is_winner)).map (fun r => r.return_pct)
    let avg_winner_pct :=
      if winner_returns = [] then 0 else winner_returns.sum / (winner_returns.length : ℚ)
    let loser_returns := (results.filter (fun r => !r.is_winner)).map (fun r => r.return_pct)
    let avg_loser_pct :=
      if loser_returns = [] then 0 else loser_returns.sum / (loser_returns.length : ℚ)
    let total_pnl := (results.map (fun r => r.realized_pnl)).sum
    let best_trade_pct := if returns = [] then 0 else pyMax returns
    let worst_trade_pct := if returns = [] then 0 else pyMin returns
    let gross_profit := ((results.filter (fun r => r.is_winner)).map (fun r => r.realized_pnl)).sum
    let gross_loss := |((results.filter (fun r => !r.is_winner)).map (fun r => r.realized_pnl)).sum|
    let profit_factor := if 0 < gross_loss then gross_profit / gross_loss else 0
    let max_drawdown_pct := calculateMaxDrawdown results
    let sharpe_ratio := calculateSharpeRatio returns 0
    let sortino_ratio := calculateSortinoRatio returns 0
    let avg_days_held : ℚ :=
      if results = [] then 0 else ((results.map (fun r => r.days_held)).sum : ℚ) / (results.length : ℚ)
    ⟨total_trades, winners, losers, win_rate, avg_return_pct, avg_winner_pct,
     avg_loser_pct, total_pnl, max_drawdown_pct, sharpe_ratio, sortino_ratio,
     profit_factor, avg_days_held, best_trade_pct, worst_trade_pct⟩

/-! ## Earnings-edge analyzer
(`condor_screener/backtest/earnings_analyzer.py`) -/

/-- `EarningsEdgeAnalyzer._categorize_results`, as the triple
(pre-earnings, post-earnings, no-earnings): `had_earnings` results, then
remaining results with `short_put.dte > 0`, then the rest.  The loop
appends in input order, i.e. each group is a filter. -/
def categorizeResults (results : List BacktestResult) (today : ℤ) :
    List BacktestResult × List BacktestResult × List BacktestResult :=
  (results.filter (fun r => r.had_earnings),
   results.filter (fun r => !r.had_earnings && decide (0 < r.iron_condor.short_put.dte today)),
   results.filter (fun r => !r.had_earnings && decide (r.iron_condor.short_put.dte today ≤ 0)))

/-- `EarningsEdgeAnalyzer._approximate_p_value(t_stat, df)` with the
argument squared: the caller only ever compares the nonnegative
`t_stat = |mean1 - mean2| / sqrt(seSq)` against positive constants `c`,
and `t_stat > c ↔ t_stat² > c²`, so the fixed band table is applied to
`t_sq = t_stat²` against the squared thresholds
(`1.96² = 3.8416`, etc.), avoiding the square root exactly. -/
def approximatePValueSq (t_sq df : ℚ) : ℚ :=
  if 30 < df then
    if 9 < t_sq then 27/10000
    else if 25/4 < t_sq then 124/10000
    else if 4 < t_sq then 455/10000
    else if 38416/10000 < t_sq then 5/100
    else if 9/4 < t_sq then 1336/10000
    else if 1 < t_sq then 3173/10000
    else 1/2
  else
    if 25/4 < t_sq then 2/100
    else if 4 < t_sq then 6/100
    else if 9/4 < t_sq then 15/100
    else 1/2

/-- `EarningsEdgeAnalyzer._t_test(sample1, sample2)`: Welch two-sample
test returning `(is_significant, p_value)`.  `pooled_se == 0` is the
equivalent exact test `seSq = 0`, and the t-statistic is carried
squared (see `approximatePValueSq`). -/
def tTestReturns (sample1 sample2 : List ℚ) : Bool × ℚ :=
  if sample1 = [] ∨ sample2 = [] then (false, 1) else
  let n1 : ℚ := sample1.length
  let n2 : ℚ := sample2.length
  if sample1.length < 2 ∨ sample2.length < 2 then (false, 1) else
  let mean1 := sample1.sum / n1
  let mean2 := sample2.sum / n2
  let var1 := ((sample1.map (fun x => (x - mean1) ^ 2)).sum) / (n1 - 1)
  let var2 := ((sample2.map (fun x => (x - mean2) ^ 2)).sum) / (n2 - 1)
  let se_sq := var1 / n1 + var2 / n2
  if se_sq = 0 then (false, 1) else
  let t_sq := (mean1 - mean2) ^ 2 / se_sq
  let df := se_sq ^ 2 / ((var1 / n1) ^ 2 / (n1 - 1) + (var2 / n2) ^ 2 / (n2 - 1))
  let p_value := approximatePValueSq t_sq df
  (decide (p_value < 5/100), p_value)

/-- Which message `EarningsEdgeAnalyzer._generate_recommendation`
selects; the source formats these cases into strings, modelled here as
tags (the p-value only appears interpolated inside the text). -/
inductive Recommendation where
  | insufficient_no_trades
  | insufficient_small_groups
  | edge_confirmed
  | weak_evidence
  | unexpected_pre_better
  | no_edge
deriving DecidableEq

/-- `EarningsEdgeAnalyzer._generate_recommendation`. -/
def generateRecommendation (pre_metrics post_metrics : PerformanceMetrics)
    (is_significant : Bool) : Recommendation :=
  if post_metrics.total_trades = 0 ∧ pre_metrics.total_trades = 0 then
    .insufficient_no_trades
  else if post_metrics.total_trades < 10 ∨ pre_metrics.total_trades < 10 then
    .insufficient_small_groups
  else if is_significant ∧ pre_metrics.avg_return_pct < post_metrics.avg_return_pct then
    .edge_confirmed
  else if ¬ is_significant ∧ pre_metrics.avg_return_pct < post_metrics.avg_return_pct then
    .weak_evidence
  else if is_significant ∧ post_metrics.avg_return_pct < pre_metrics.avg_return_pct then
    .unexpected_pre_better
  else
    .no_edge

/-- `EarningsComparison`. -/
structure EarningsComparison where
  pre_earnings : PerformanceMetrics
  post_earnings : PerformanceMetrics
  no_earnings : PerformanceMetrics
  win_rate_diff : ℚ
  avg_return_diff : ℚ
  sharpe_diff : ℝ
  is_significant : Bool
  p_value : ℚ
  recommendation : Recommendation

/-- `EarningsEdgeAnalyzer.analyze` (the constructor's
`_categorize_results` inlined): per-group metrics, post-minus-pre
differences, the two-sample t-test on the post vs. pre per-trade
returns, and the recommendation. -/
noncomputable def analyze (results : List BacktestResult) (today : ℤ) : EarningsComparison :=
  let groups := categorizeResults results today
  let pre_metrics := calculate_metrics groups.1
  let post_metrics := calculate_metrics groups.2.1
  let no_metrics := calculate_metrics groups.2.2
  let win_rate_diff := post_metrics.win_rate - pre_metrics.win_rate
  let avg_return_diff := post_metrics.avg_return_pct - pre_metrics.avg_return_pct
  let sharpe_diff := post_metrics.sharpe_ratio - pre_metrics.sharpe_ratio
  let test := tTestReturns (groups.2.1.map (fun r => r.return_pct))
                           (groups.1.map (fun r => r.return_pct))
  let recommendation := generateRecommendation pre_metrics post_metrics test.1
  ⟨pre_metrics, post_metrics, no_metrics, win_rate_diff, avg_return_diff,
   sharpe_diff, test.1, test.2, recommendation⟩

/-! ## Concrete fixtures

A small SPY chain matching the shapes used throughout the repository's
own test-suite (strikes 540/545 puts, 575/580 calls, one expiration at
day 35). -/

/-- Short put leg: strike 545, delta −0.20, mid 2.00. -/
def spyShortPut : Contract :=
  { ticker := "SPY", strike := 545, expiration := 35, option_type := .put,
    bid := 2, ask := 2, volume := 1000, open_interest := 5000,
    delta := -0.2, implied_vol := 0.25 }

/-- Long put leg: strike 540, delta −0.10, mid 0.50. -/
def spyLongPut : Contract :=
  { ticker := "SPY", strike := 540, expiration := 35, option_type := .put,
    bid := 0.5, ask := 0.5, volume := 1000, open_interest := 5000,
    delta := -0.1, implied_vol := 0.25 }

/-- Short call leg: strike 575, delta 0.20, mid 2.00. -/
def spyShortCall : Contract :=
  { ticker := "SPY", strike := 575, expiration := 35, option_type := .call,
    bid := 2, ask := 2, volume := 1000, open_interest := 5000,
    delta := 0.2, implied_vol := 0.25 }

/-- Long call leg: strike 580, delta 0.10, mid 0.50. -/
def spyLongCall : Contract :=
  { ticker := "SPY", strike := 580, expiration := 35, option_type := .call,
    bid := 0.5, ask := 0.5, volume := 1000, open_interest := 5000,
    delta := 0.1, implied_vol := 0.25 }

/-- The condor built from the four legs above: net credit 3, both wings
5 wide, max loss 2. -/
def spyCondor : IronCondor :=
  ⟨"SPY", 35, spyShortPut, spyLongPut, spyShortCall, spyLongCall⟩

/-- The four-contract chain feeding the generator fixtures. -/
def spyChain : List Contract := [spyShortPut, spyLongPut, spyShortCall, spyLongCall]

/-- The builder's constructor defaults
(`StrategyConfig()`): DTE 30–45, |delta| 0.15–0.25, wings 5/5. -/
def defaultStrategyConfig : StrategyConfig := ⟨30, 45, 0.15, 0.25, 5, 5, true⟩

/-! ## Claims about the candidate generator -/

/-- Every condor yielded by `_generate_condors_for_expiration` passed the
`_is_valid_condor` filter. -/
theorem mem_generateCondorsForExpiration_valid {options : List Contract}
    {e : ℤ} {config : StrategyConfig} {ic : IronCondor}
    (h : ic ∈ generateCondorsForExpiration options e config) : isValidCondor ic := by
  simp only [generateCondorsForExpiration] at h
  split at h
  · exact absurd h (List.not_mem_nil ic)
  · simp only [List.mem_flatMap] at h
    obtain ⟨short_put, -, h⟩ := h
    cases hlp : findStrike (strikeDict (options.filter (fun o => decide (o.option_type = OptionType.put))))
        (short_put.strike - config.wing_width_put) (1/2) with
    | none => rw [hlp] at h; exact absurd h (List.not_mem_nil ic)
    | some long_put =>
      rw [hlp] at h
      simp only [List.mem_filterMap] at h
      obtain ⟨short_call, -, h⟩ := h
      cases hlc : findStrike (strikeDict (options.filter (fun o => decide (o.option_type = OptionType.call))))
          (short_call.strike + config.wing_width_call) (1/2) with
      | none => rw [hlc] at h; cases h
      | some long_call =>
        rw [hlc] at h
        dsimp only at h
        by_cases hvalid :
            (IronCondor.mk short_put.ticker e short_put long_put short_call long_call).structurallyValid ∧
            isValidCondor (IronCondor.mk short_put.ticker e short_put long_put short_call long_call)
        · rw [if_pos hvalid] at h
          obtain rfl := Option.some.inj h
          exact hvalid.2
        · rw [if_neg hvalid] at h
          cases h

/-- C4.  For every pool of Contracts and every strategy configuration,
every Spread emitted by the Candidate Generator satisfies
`net_credit > 0`, `max_loss > 0`, `max_profit < put_side_width` and
`max_profit < call_side_width`. -/
theorem generator_output_satisfies_invariants (options : List Contract)
    (config : StrategyConfig) (today : ℤ) (ic : IronCondor)
    (hmem : ic ∈ generateIronCondors options config today) :
    0 < ic.net_credit ∧ 0 < ic.max_loss ∧
    ic.max_profit < ic.put_side_width ∧ ic.max_profit < ic.call_side_width := by
  simp only [generateIronCondors] at hmem
  split at hmem
  · exact absurd hmem (List.not_mem_nil ic)
  · simp only [List.mem_flatMap] at hmem
    obtain ⟨e, -, hmem⟩ := hmem
    obtain ⟨h1, h2, h3⟩ := mem_generateCondorsForExpiration_valid hmem
    push_neg at h1 h2 h3
    exact ⟨h1, h2, h3.1, h3.2⟩

set_option maxHeartbeats 2000000 in
/-- Witness for C4: on the concrete SPY chain with the default strategy
configuration the generator emits `spyCondor`, and the four invariants
hold for it. -/
theorem generator_output_satisfies_invariants_witness :
    spyCondor ∈ generateIronCondors spyChain defaultStrategyConfig 0 ∧
    0 < spyCondor.net_credit ∧ 0 < spyCondor.max_loss ∧
    spyCondor.max_profit < spyCondor.put_side_width ∧
    spyCondor.max_profit < spyCondor.call_side_width := by
  have hmem : spyCondor ∈ generateIronCondors spyChain defaultStrategyConfig 0 := by
    norm_num [generateIronCondors, generateCondorsForExpiration, expirationKeys,
      strikeDict, dictWrite, findStrike, lookupExact, lookupWithinTolerance,
      Contract.dte, spyChain, defaultStrategyConfig, spyCondor,
      spyShortPut, spyLongPut, spyShortCall, spyLongCall,
      IronCondor.structurallyValid, isValidCondor, IronCondor.net_credit,
      IronCondor.max_profit, IronCondor.max_loss, IronCondor.max_loss_put_side,
      IronCondor.max_loss_call_side, IronCondor.put_side_width,
      IronCondor.call_side_width, Contract.mid, List.filter, List.flatMap,
      List.cons_ne_nil, ne_eq, abs_le]
  exact ⟨hmem, generator_output_satisfies_invariants _ _ _ _ hmem⟩

/-! ## Claim about the long-leg strike lookup (`_find_strike`) -/

/-- A put at strike 539.6, inserted into the chain before `putNearer`. -/
def putFarther : Contract :=
  { ticker := "SPY", strike := 539.6, expiration := 35, option_type := .put,
    bid := 1, ask := 1, volume := 1000, open_interest := 5000,
    delta := -0.1, implied_vol := 0.25 }

/-- A put at strike 540.1, nearer to the target 540 than `putFarther`. -/
def putNearer : Contract :=
  { ticker := "SPY", strike := 540.1, expiration := 35, option_type := .put,
    bid := 1, ask := 1, volume := 1000, open_interest := 5000,
    delta := -0.11, implied_vol := 0.25 }

/-- C5 (against the code): with no exact match, `_find_strike` returns
the *first* contract in dict iteration (= insertion) order whose strike
is within tolerance, not the nearest one.  With strikes 539.6 and 540.1
both within 0.5 of the target 540, it returns the 539.6 contract
(distance 0.4) although the 540.1 contract (distance 0.1) is strictly
nearer — contradicting the function's own "Find closest strike within
tolerance" comment.  The tolerance 1/2 is the one the candidate
generator passes. -/
theorem find_strike_returns_first_in_order_not_nearest :
    findStrike (strikeDict [putFarther, putNearer]) 540 (1/2) = some putFarther ∧
    |putNearer.strike - 540| < |putFarther.strike - 540| ∧
    putNearer ≠ putFarther := by
  refine ⟨?_, ?_, ?_⟩
  · norm_num [findStrike, strikeDict, dictWrite, lookupExact, lookupWithinTolerance,
      putFarther, putNearer, abs_le, List.foldl]
  · have h1 : |putNearer.strike - 540| = 1/10 := by
      rw [putNearer]; rw [abs_of_nonneg] <;> norm_num
    have h2 : |putFarther.strike - 540| = 2/5 := by
      rw [putFarther]; rw [abs_of_nonpos] <;> norm_num
    rw [h1, h2]; norm_num
  · simp only [putNearer, putFarther, ne_eq, Contract.mk.injEq]
    norm_num

/-! ## Claims about expiration and position valuation -/

/-- C1 (amended).  For every validated Spread and every final price:
strictly between the short strikes the expiration value is `0`;
otherwise it is `100 ×` the breached side's intrinsic spread value
(the source converts to per-contract dollars with a `* 100` multiplier
while leg prices and wing widths are per-share), and it never exceeds
`100 ×` that side's wing width. -/
theorem expiration_value_breach_characterization (ic : IronCondor) (price : ℚ)
    (hs : ic.structurallyValid) (_hv : isValidCondor ic) :
    (ic.short_put.strike < price ∧ price < ic.short_call.strike →
       calculateExpirationValue ic price = 0) ∧
    (price ≤ ic.short_put.strike →
       calculateExpirationValue ic price =
         (max 0 (ic.short_put.strike - price) - max 0 (ic.long_put.strike - price)) * 100 ∧
       calculateExpirationValue ic price ≤ 100 * ic.put_side_width) ∧
    (ic.short_call.strike ≤ price →
       calculateExpirationValue ic price =
         (max 0 (price - ic.short_call.strike) - max 0 (price - ic.long_call.strike)) * 100 ∧
       calculateExpirationValue ic price ≤ 100 * ic.call_side_width) := by
  obtain ⟨-, -, -, -, -, -, -, -, -, -, -, -, hlp, hlc, hpc⟩ := hs
  refine ⟨fun h => ?_, fun h => ?_, fun h => ?_⟩
  · simp only [calculateExpirationValue, if_pos h]
  · have hno : ¬(ic.short_put.strike < price ∧ price < ic.short_call.strike) := by
      rintro ⟨h1, -⟩; linarith
    have hval : calculateExpirationValue ic price =
        (max 0 (ic.short_put.strike - price) - max 0 (ic.long_put.strike - price)) * 100 := by
      simp only [calculateExpirationValue, if_neg hno, if_pos h]
    refine ⟨hval, ?_⟩
    have hA : max 0 (ic.short_put.strike - price) = ic.short_put.strike - price :=
      max_eq_right (by linarith)
    have hB : ic.long_put.strike - price ≤ max 0 (ic.long_put.strike - price) :=
      le_max_right 0 _
    rw [hval, IronCondor.put_side_width]
    nlinarith
  · have hno : ¬(ic.short_put.strike < price ∧ price < ic.short_call.strike) := by
      rintro ⟨-, h2⟩; linarith
    have hno2 : ¬(price ≤ ic.short_put.strike) := by linarith
    have hval : calculateExpirationValue ic price =
        (max 0 (price - ic.short_call.strike) - max 0 (price - ic.long_call.strike)) * 100 := by
      simp only [calculateExpirationValue, if_neg hno, if_neg hno2, if_pos h]
    refine ⟨hval, ?_⟩
    have hA : max 0 (price - ic.short_call.strike) = price - ic.short_call.strike :=
      max_eq_right (by linarith)
    have hB : price - ic.long_call.strike ≤ max 0 (price - ic.long_call.strike) :=
      le_max_right 0 _
    rw [hval, IronCondor.call_side_width]
    nlinarith

/-- Witness for the amended C1: the SPY condor is validated and its
expiration value at the in-tent price 560 is 0, and at the breach price
530 it equals the put side's intrinsic `× 100` and respects the
`100 × wing width` cap. -/
theorem expiration_value_breach_characterization_witness :
    calculateExpirationValue spyCondor 560 = 0 ∧
    calculateExpirationValue spyCondor 530 ≤ 100 * spyCondor.put_side_width := by
  have hs : spyCondor.structurallyValid := by
    norm_num [IronCondor.structurallyValid, spyCondor, spyShortPut, spyLongPut,
      spyShortCall, spyLongCall]
  have hv : isValidCondor spyCondor := by
    norm_num [isValidCondor, spyCondor, IronCondor.net_credit, IronCondor.max_profit,
      IronCondor.max_loss, IronCondor.max_loss_put_side, IronCondor.max_loss_call_side,
      IronCondor.put_side_width, IronCondor.call_side_width, Contract.mid,
      spyShortPut, spyLongPut, spyShortCall, spyLongCall]
  constructor
  · exact (expiration_value_breach_characterization spyCondor 560 hs hv).1
      (by norm_num [spyCondor, spyShortPut, spyShortCall])
  · exact ((expiration_value_breach_characterization spyCondor 530 hs hv).2.1
      (by norm_num [spyCondor, spyShortPut])).2

/-- Counterexample to C1 as stated: for the validated SPY condor
(leg-price credit 3, wing widths 5) and final price 530, the expiration
valuation returns 500 — the intrinsic spread value ×100, not the
intrinsic spread value 5 in the units of the leg prices — and 500
exceeds the put side's wing width 5. -/
theorem expiration_value_exceeds_wing_width_counterexample :
    spyCondor.structurallyValid ∧ isValidCondor spyCondor ∧
    calculateExpirationValue spyCondor 530 = 500 ∧
    spyCondor.put_side_width = 5 ∧
    ¬ calculateExpirationValue spyCondor 530 ≤ spyCondor.put_side_width := by
  norm_num [IronCondor.structurallyValid, isValidCondor, calculateExpirationValue,
    spyCondor, IronCondor.net_credit, IronCondor.max_profit, IronCondor.max_loss,
    IronCondor.max_loss_put_side, IronCondor.max_loss_call_side,
    IronCondor.put_side_width, IronCondor.call_side_width, Contract.mid,
    spyShortPut, spyLongPut, spyShortCall, spyLongCall]

/-- C9 (amended).  At a price exactly equal to either short strike the
position-valuation heuristic takes the breached-side intrinsic branch,
whose spread value is 0, and returns `min 0 max_loss` — which is 0
whenever `max_loss` is nonnegative (in particular for every
generator-validated spread).  The time-decay branch is never applied
there. -/
theorem position_value_at_short_strike_is_zero (ic : IronCondor) (dte today : ℤ)
    (price : ℚ) (hs : ic.structurallyValid) (hml : 0 ≤ ic.max_loss)
    (hp : price = ic.short_put.strike ∨ price = ic.short_call.strike) :
    estimatePositionValue ic price dte today = 0 := by
  obtain ⟨-, -, -, -, -, -, -, -, -, -, -, -, hlp, hlc, hpc⟩ := hs
  rcases hp with hp | hp
  · have hno : ¬(ic.short_put.strike < price ∧ price < ic.short_call.strike) := by
      rintro ⟨h1, -⟩; rw [hp] at h1; exact lt_irrefl _ h1
    have hle : price ≤ ic.short_put.strike := le_of_eq hp
    simp only [estimatePositionValue, if_neg hno, if_pos hle]
    have h1 : max 0 (ic.short_put.strike - price) = 0 := by
      rw [hp]; simp
    have h2 : max 0 (ic.long_put.strike - price) = 0 := by
      rw [hp]; exact max_eq_left (by linarith)
    rw [h1, h2]
    simpa using min_eq_left hml
  · have hno : ¬(ic.short_put.strike < price ∧ price < ic.short_call.strike) := by
      rintro ⟨-, h2⟩; rw [hp] at h2; exact lt_irrefl _ h2
    have hno2 : ¬(price ≤ ic.short_put.strike) := by rw [hp]; linarith
    have hge : ic.short_call.strike ≤ price := ge_of_eq hp
    simp only [estimatePositionValue, if_neg hno, if_neg hno2, if_pos hge]
    have h1 : max 0 (price - ic.short_call.strike) = 0 := by
      rw [hp]; simp
    have h2 : max 0 (price - ic.long_call.strike) = 0 := by
      rw [hp]; exact max_eq_left (by linarith)
    rw [h1, h2]
    simpa using min_eq_left hml

/-- Witness for the amended C9: the SPY condor has `max_loss = 2 ≥ 0`
and the heuristic value at its short put strike 545 is 0. -/
theorem position_value_at_short_strike_is_zero_witness :
    estimatePositionValue spyCondor 545 10 0 = 0 :=
  position_value_at_short_strike_is_zero spyCondor 10 0 545
    (by norm_num [IronCondor.structurallyValid, spyCondor, spyShortPut, spyLongPut,
      spyShortCall, spyLongCall])
    (by norm_num [IronCondor.max_loss, IronCondor.max_loss_put_side,
      IronCondor.max_loss_call_side, IronCondor.net_credit, IronCondor.put_side_width,
      IronCondor.call_side_width, Contract.mid, spyCondor, spyShortPut, spyLongPut,
      spyShortCall, spyLongCall])
    (Or.inl (by norm_num [spyCondor, spyShortPut]))

/-- Short put leg with inflated premium (mid 10). -/
def inflatedShortPut : Contract :=
  { ticker := "SPY", strike := 545, expiration := 35, option_type := .put,
    bid := 10, ask := 10, volume := 1000, open_interest := 5000,
    delta := -0.2, implied_vol := 0.25 }

/-- Long put leg (mid 1). -/
def inflatedLongPut : Contract :=
  { ticker := "SPY", strike := 540, expiration := 35, option_type := .put,
    bid := 1, ask := 1, volume := 1000, open_interest := 5000,
    delta := -0.1, implied_vol := 0.25 }

/-- Short call leg with inflated premium (mid 10). -/
def inflatedShortCall : Contract :=
  { ticker := "SPY", strike := 575, expiration := 35, option_type := .call,
    bid := 10, ask := 10, volume := 1000, open_interest := 5000,
    delta := 0.2, implied_vol := 0.25 }

/-- Long call leg (mid 1). -/
def inflatedLongCall : Contract :=
  { ticker := "SPY", strike := 580, expiration := 35, option_type := .call,
    bid := 1, ask := 1, volume := 1000, open_interest := 5000,
    delta := 0.1, implied_vol := 0.25 }

/-- A structurally valid condor whose net credit 18 exceeds its wing
widths 5, so `max_loss = 5 - 18 = -13 < 0`.  Such a spread passes the
`IronCondor.__post_init__` checks (they only order strikes); only the
generator's separate `_is_valid_condor` filter would discard it. -/
def inflatedCondor : IronCondor :=
  ⟨"SPY", 35, inflatedShortPut, inflatedLongPut, inflatedShortCall, inflatedLongCall⟩

/-- Counterexample to C9 as stated ("for every Spread ... returns 0"):
for the structurally valid `inflatedCondor` (max loss −13) the
valuation at a price equal to the short put strike takes the intrinsic
branch but returns `min 0 max_loss = -13 ≠ 0`. -/
theorem position_value_at_short_strike_nonzero_counterexample :
    inflatedCondor.structurallyValid ∧
    (545 : ℚ) = inflatedCondor.short_put.strike ∧
    estimatePositionValue inflatedCondor 545 10 0 = -13 ∧
    ¬ estimatePositionValue inflatedCondor 545 10 0 = 0 := by
  norm_num [IronCondor.structurallyValid, estimatePositionValue, inflatedCondor,
    IronCondor.net_credit, IronCondor.max_profit, IronCondor.max_loss,
    IronCondor.max_loss_put_side, IronCondor.max_loss_call_side,
    IronCondor.put_side_width, IronCondor.call_side_width, Contract.mid,
    Contract.dte, inflatedShortPut, inflatedLongPut, inflatedShortCall,
    inflatedLongCall]

/-- C10.  Simulating with an empty price path is total and returns an
expiration outcome dated at the spread's expiration, priced as if the
final underlying price were `0.0`; with nonnegative strikes that prices
the put side as fully breached (`put_side_width * 100`). -/
theorem simulate_empty_path_expiration (ic : IronCondor) (entry_date today : ℤ)
    (rule : ExitRule) (earn : EarningsInput) :
    (simulate_iron_condor ic entry_date rule [] earn today).exit_reason =
        ExitReason.expiration ∧
    (simulate_iron_condor ic entry_date rule [] earn today).exit_date = ic.expiration ∧
    (simulate_iron_condor ic entry_date rule [] earn today).exit_cost =
        calculateExpirationValue ic 0 ∧
    (simulate_iron_condor ic entry_date rule [] earn today).realized_pnl =
        ic.net_credit - calculateExpirationValue ic 0 ∧
    (ic.structurallyValid → 0 ≤ ic.long_put.strike →
      (simulate_iron_condor ic entry_date rule [] earn today).exit_cost =
        ic.put_side_width * 100) := by
  refine ⟨rfl, rfl, rfl, rfl, fun hs hlp0 => ?_⟩
  obtain ⟨-, -, -, -, -, -, -, -, -, -, -, -, hlp, hlc, hpc⟩ := hs
  show calculateExpirationValue ic 0 = ic.put_side_width * 100
  have hno : ¬(ic.short_put.strike < 0 ∧ (0:ℚ) < ic.short_call.strike) := by
    rintro ⟨h1, -⟩; linarith
  have hle : (0:ℚ) ≤ ic.short_put.strike := by linarith
  simp only [calculateExpirationValue, if_neg hno, if_pos hle]
  have h1 : max 0 (ic.short_put.strike - 0) = ic.short_put.strike :=
    by simpa using max_eq_right (by linarith : (0:ℚ) ≤ ic.short_put.strike)
  have h2 : max 0 (ic.long_put.strike - 0) = ic.long_put.strike :=
    by simpa using max_eq_right hlp0
  rw [h1, h2, IronCondor.put_side_width]

/-- Witness for C10 at the SPY condor with the default exit rule. -/
theorem simulate_empty_path_expiration_witness :
    (simulate_iron_condor spyCondor 5 defaultExitRule [] EarningsInput.noDate 0).exit_reason =
        ExitReason.expiration ∧
    (simulate_iron_condor spyCondor 5 defaultExitRule [] EarningsInput.noDate 0).exit_cost =
        spyCondor.put_side_width * 100 := by
  refine ⟨(simulate_empty_path_expiration spyCondor 5 0 defaultExitRule .noDate).1, ?_⟩
  exact (simulate_empty_path_expiration spyCondor 5 0 defaultExitRule .noDate).2.2.2.2
    (by norm_num [IronCondor.structurallyValid, spyCondor, spyShortPut, spyLongPut,
      spyShortCall, spyLongCall])
    (by norm_num [spyCondor, spyLongPut])

/-! ## Claims about the simulator's exit-rule state machine -/

/-- C6.  On a sampled date the loop skips days before entry, halts past
expiration, and between entry and expiration (inclusive) evaluates the
exit rules in the fixed priority order earnings → min-DTE →
profit-target → stop-loss, terminating at the first rule that fires;
an earnings exit costs 30% of max profit and a min-DTE exit 25% of max
profit. -/
theorem exit_rules_fixed_priority_order (ic : IronCondor) (entry_date today dt : ℤ)
    (rule : ExitRule) (earn : EarningsInput) (price : ℚ) (rest : List (ℤ × ℚ)) :
    (dt < entry_date →
       runPath ic entry_date rule earn today ((dt, price) :: rest) =
         runPath ic entry_date rule earn today rest) ∧
    (entry_date ≤ dt → ic.expiration < dt →
       runPath ic entry_date rule earn today ((dt, price) :: rest) = none) ∧
    (entry_date ≤ dt → dt ≤ ic.expiration →
      (earningsRuleFires earn rule dt = true →
         runPath ic entry_date rule earn today ((dt, price) :: rest) =
           some (dt, ExitReason.earnings, ic.max_profit * (3/10))) ∧
      (earningsRuleFires earn rule dt = false →
         ic.expiration - dt ≤ rule.min_dte_to_close →
         runPath ic entry_date rule earn today ((dt, price) :: rest) =
           some (dt, ExitReason.min_dte, ic.max_profit * (1/4))) ∧
      (earningsRuleFires earn rule dt = false →
         ¬ ic.expiration - dt ≤ rule.min_dte_to_close →
         ic.max_profit * rule.profit_target_pct ≤
           ic.net_credit - estimatePositionValue ic price (ic.expiration - dt) today →
         runPath ic entry_date rule earn today ((dt, price) :: rest) =
           some (dt, ExitReason.profit_target,
             estimatePositionValue ic price (ic.expiration - dt) today)) ∧
      (earningsRuleFires earn rule dt = false →
         ¬ ic.expiration - dt ≤ rule.min_dte_to_close →
         ¬ ic.max_profit * rule.profit_target_pct ≤
             ic.net_credit - estimatePositionValue ic price (ic.expiration - dt) today →
         ic.net_credit - estimatePositionValue ic price (ic.expiration - dt) today ≤
           -(ic.max_loss * rule.stop_loss_pct) →
         runPath ic entry_date rule earn today ((dt, price) :: rest) =
           some (dt, ExitReason.stop_loss,
             estimatePositionValue ic price (ic.expiration - dt) today)) ∧
      (earningsRuleFires earn rule dt = false →
         ¬ ic.expiration - dt ≤ rule.min_dte_to_close →
         ¬ ic.max_profit * rule.profit_target_pct ≤
             ic.net_credit - estimatePositionValue ic price (ic.expiration - dt) today →
         ¬ ic.net_credit - estimatePositionValue ic price (ic.expiration - dt) today ≤
             -(ic.max_loss * rule.stop_loss_pct) →
         runPath ic entry_date rule earn today ((dt, price) :: rest) =
           runPath ic entry_date rule earn today rest)) := by
  refine ⟨fun h1 => ?_, fun h1 h2 => ?_, fun h1 h2 => ?_⟩
  · simp only [runPath, if_pos h1]
  · simp only [runPath, if_neg (not_lt.mpr h1), if_pos h2]
  · have hd1 : ¬ dt < entry_date := not_lt.mpr h1
    have hd2 : ¬ ic.expiration < dt := not_lt.mpr h2
    refine ⟨fun hE => ?_, fun hE hM => ?_, fun hE hM hP => ?_,
            fun hE hM hP hS => ?_, fun hE hM hP hS => ?_⟩
    · simp only [runPath, if_neg hd1, if_neg hd2, if_pos hE, estimateExitCost]
    · simp only [runPath, if_neg hd1, if_neg hd2, hE, Bool.false_eq_true, if_false,
        if_pos hM, estimateExitCost]
    · simp only [runPath, if_neg hd1, if_neg hd2, hE, Bool.false_eq_true, if_false,
        if_neg hM, if_pos hP]
    · simp only [runPath, if_neg hd1, if_neg hd2, hE, Bool.false_eq_true, if_false,
        if_neg hM, if_neg hP, if_pos hS]
    · simp only [runPath, if_neg hd1, if_neg hd2, hE, Bool.false_eq_true, if_false,
        if_neg hM, if_neg hP, if_neg hS]

/-- Witness for C6: with earnings on day 11, a 3-day window and sampled
day 10 inside [entry, expiration], the earnings rule fires first and
the exit cost is 30% of max profit. -/
theorem exit_rules_fixed_priority_order_witness :
    earningsRuleFires (EarningsInput.onDate 11) defaultExitRule 10 = true ∧
    runPath spyCondor 5 defaultExitRule (EarningsInput.onDate 11) 0 [(10, 560)] =
      some (10, ExitReason.earnings, spyCondor.max_profit * (3/10)) := by
  have hE : earningsRuleFires (EarningsInput.onDate 11) defaultExitRule 10 = true := by
    norm_num [earningsRuleFires, defaultExitRule]
  refine ⟨hE, ?_⟩
  exact ((exit_rules_fixed_priority_order spyCondor 5 0 10 defaultExitRule
    (EarningsInput.onDate 11) 560 []).2.2 (by norm_num) (by norm_num [spyCondor])).1 hE

/-- Under an exit configuration whose rules cannot fire on an in-tent
path (no earnings date, negative min-DTE threshold, profit-target
fraction above 1, nonnegative stop-loss fraction, positive credit,
nonnegative max loss, entry on or after the evaluation day), the
simulator loop never exits early. -/
theorem runPath_none_of_inside_tent (ic : IronCondor) (entry_date today : ℤ)
    (rule : ExitRule) (path : List (ℤ × ℚ)) (hs : ic.structurallyValid)
    (hc : 0 < ic.net_credit) (hml : 0 ≤ ic.max_loss)
    (hmd : rule.min_dte_to_close < 0) (hpt : 1 < rule.profit_target_pct)
    (hsl : 0 ≤ rule.stop_loss_pct) (htoday : today ≤ entry_date)
    (hin : ∀ p ∈ path, ic.short_put.strike < p.2 ∧ p.2 < ic.short_call.strike) :
    runPath ic entry_date rule EarningsInput.noDate today path = none := by
  obtain ⟨-, -, -, -, hspe, -, -, -, -, -, -, -, -, -, -⟩ := hs
  induction path with
  | nil => rfl
  | cons head rest ih =>
    obtain ⟨dt, price⟩ := head
    have hin_head := hin (dt, price) (List.mem_cons_self _ _)
    have hin_rest : ∀ p ∈ rest, ic.short_put.strike < p.2 ∧ p.2 < ic.short_call.strike :=
      fun p hp => hin p (List.mem_cons_of_mem _ hp)
    by_cases h1 : dt < entry_date
    · simpa only [runPath, if_pos h1] using ih hin_rest
    · by_cases h2 : ic.expiration < dt
      · simp only [runPath, if_neg h1, if_pos h2]
      · have hdte0 : (0:ℤ) ≤ ic.expiration - dt := by omega
        have hM : ¬ ic.expiration - dt ≤ rule.min_dte_to_close := by omega
        have hval : estimatePositionValue ic price (ic.expiration - dt) today =
            ic.max_profit *
              (((ic.expiration - dt : ℤ) : ℚ) / ((max (ic.short_put.dte today) 1 : ℤ) : ℚ)) *
              (3/10) := by
          simp only [estimatePositionValue, if_pos hin_head]
        set tf : ℚ :=
          ((ic.expiration - dt : ℤ) : ℚ) / ((max (ic.short_put.dte today) 1 : ℤ) : ℚ) with htf
        have hden_pos : (0:ℚ) < ((max (ic.short_put.dte today) 1 : ℤ) : ℚ) := by
          have : (1:ℤ) ≤ max (ic.short_put.dte today) 1 := le_max_right _ _
          exact_mod_cast lt_of_lt_of_le Int.zero_lt_one this
        have htf0 : 0 ≤ tf := by
          apply div_nonneg _ (le_of_lt hden_pos)
          exact_mod_cast hdte0
        have htf1 : tf ≤ 1 := by
          rw [htf, div_le_one hden_pos]
          have hle : ic.expiration - dt ≤ max (ic.short_put.dte today) 1 := by
            have h3 : ic.expiration - dt ≤ ic.expiration - today := by omega
            calc ic.expiration - dt ≤ ic.expiration - today := h3
              _ = ic.short_put.dte today := by
                  rw [Contract.dte, hspe]
              _ ≤ max (ic.short_put.dte today) 1 := le_max_left _ _
          exact_mod_cast hle
        have hmp : ic.max_profit = ic.net_credit := rfl
        have hvlow : 0 ≤ estimatePositionValue ic price (ic.expiration - dt) today := by
          rw [hval, hmp]; positivity
        have hvhigh : estimatePositionValue ic price (ic.expiration - dt) today ≤
            ic.net_credit * (3/10) := by
          rw [hval, hmp]; nlinarith
        have hP : ¬ ic.max_profit * rule.profit_target_pct ≤
            ic.net_credit - estimatePositionValue ic price (ic.expiration - dt) today := by
          rw [hmp]; nlinarith
        have hS : ¬ ic.net_credit - estimatePositionValue ic price (ic.expiration - dt) today ≤
            -(ic.max_loss * rule.stop_loss_pct) := by
          have : 0 ≤ ic.max_loss * rule.stop_loss_pct := mul_nonneg hml hsl
          nlinarith
        have hE : earningsRuleFires EarningsInput.noDate rule dt = false := rfl
        simpa only [runPath, if_neg h1, if_neg h2, hE, Bool.false_eq_true, if_false,
          if_neg hM, if_neg hP, if_neg hS] using ih hin_rest

/-- C2 (amended).  For every structurally valid Spread with positive net
credit and nonnegative max loss, every entry date on or after the
evaluation day, every nonempty price path whose samples all lie
strictly between the short strikes and which reaches the expiration
date, and every Exit Configuration under which no early-exit rule can
fire (no earnings date, negative min-DTE threshold, profit-target
fraction above 1, nonnegative stop-loss fraction), the simulator
returns `exit_reason = expiration` with `realized_pnl` equal to the
entry credit. -/
theorem simulate_inside_tent_full_credit (ic : IronCondor) (entry_date today : ℤ)
    (rule : ExitRule) (path : List (ℤ × ℚ)) (hs : ic.structurallyValid)
    (hc : 0 < ic.net_credit) (hml : 0 ≤ ic.max_loss)
    (hmd : rule.min_dte_to_close < 0) (hpt : 1 < rule.profit_target_pct)
    (hsl : 0 ≤ rule.stop_loss_pct) (htoday : today ≤ entry_date)
    (hin : ∀ p ∈ path, ic.short_put.strike < p.2 ∧ p.2 < ic.short_call.strike)
    (hne : path ≠ []) (_hreach : ∃ p ∈ path, p.1 = ic.expiration) :
    (simulate_iron_condor ic entry_date rule path EarningsInput.noDate today).exit_reason =
        ExitReason.expiration ∧
    (simulate_iron_condor ic entry_date rule path EarningsInput.noDate today).exit_date =
        ic.expiration ∧
    (simulate_iron_condor ic entry_date rule path EarningsInput.noDate today).realized_pnl =
        ic.net_credit := by
  have hnone := runPath_none_of_inside_tent ic entry_date today rule path hs hc hml
    hmd hpt hsl htoday hin
  have hlast : path.getLast? = some (path.getLast hne) := List.getLast?_eq_getLast path hne
  have hlast_mem : path.getLast hne ∈ path := List.getLast_mem hne
  have hlast_in := hin _ hlast_mem
  have hexp0 : calculateExpirationValue ic (path.getLast hne).2 = 0 := by
    simp only [calculateExpirationValue, if_pos hlast_in]
  refine ⟨?_, ?_, ?_⟩
  · simp only [simulate_iron_condor, hnone]
  · simp only [simulate_iron_condor, hnone]
  · simp only [simulate_iron_condor, hnone, hlast, hexp0, sub_zero]

/-- An exit configuration none of whose rules can fire while the price
stays inside the tent: profit target 200%, stop loss 100%, min-DTE
threshold −1 (never reached), earnings window 3 (no earnings date is
passed). -/
def lenientExitRule : ExitRule := ⟨2, 1, -1, 3⟩

/-- Witness for the amended C2: the SPY condor on an in-tent path
sampled at days 5 and 35 (= expiration) under `lenientExitRule` exits
at expiration with the full credit 3 retained. -/
theorem simulate_inside_tent_full_credit_witness :
    (simulate_iron_condor spyCondor 5 lenientExitRule [(5, 560), (35, 560)]
        EarningsInput.noDate 0).exit_reason = ExitReason.expiration ∧
    (simulate_iron_condor spyCondor 5 lenientExitRule [(5, 560), (35, 560)]
        EarningsInput.noDate 0).realized_pnl = spyCondor.net_credit := by
  have h := simulate_inside_tent_full_credit spyCondor 5 0 lenientExitRule
    [(5, 560), (35, 560)]
    (by norm_num [IronCondor.structurallyValid, spyCondor, spyShortPut, spyLongPut,
      spyShortCall, spyLongCall])
    (by norm_num [IronCondor.net_credit, Contract.mid, spyCondor, spyShortPut,
      spyLongPut, spyShortCall, spyLongCall])
    (by norm_num [IronCondor.max_loss, IronCondor.max_loss_put_side,
      IronCondor.max_loss_call_side, IronCondor.net_credit, IronCondor.put_side_width,
      IronCondor.call_side_width, Contract.mid, spyCondor, spyShortPut, spyLongPut,
      spyShortCall, spyLongCall])
    (by norm_num [lenientExitRule]) (by norm_num [lenientExitRule])
    (by norm_num [lenientExitRule]) (by norm_num)
    (by norm_num [List.forall_mem_cons, spyCondor, spyShortPut, spyShortCall])
    (by simp)
    ⟨(35, 560), by norm_num, by norm_num [spyCondor]⟩
  exact ⟨h.1, h.2.2⟩

/-- Counterexample to C2 as stated: under the *default* Exit
Configuration the same validated condor on the same in-tent path that
reaches expiration exits on the very first sampled day with reason
`profit_target` (the in-tent valuation heuristic keeps at most 30% of
max profit as remaining value, so the 50% profit target is met
immediately), and the realized P&L `78/35` is strictly below the entry
credit 3. -/
theorem simulate_inside_tent_default_rule_counterexample :
    isValidCondor spyCondor ∧
    spyCondor.short_put.strike < 560 ∧ (560:ℚ) < spyCondor.short_call.strike ∧
    (35:ℤ) = spyCondor.expiration ∧
    (simulate_iron_condor spyCondor 5 defaultExitRule [(5, 560), (35, 560)]
        EarningsInput.noDate 0).exit_reason = ExitReason.profit_target ∧
    (simulate_iron_condor spyCondor 5 defaultExitRule [(5, 560), (35, 560)]
        EarningsInput.noDate 0).realized_pnl = 78/35 ∧
    ¬ (simulate_iron_condor spyCondor 5 defaultExitRule [(5, 560), (35, 560)]
        EarningsInput.noDate 0).realized_pnl = spyCondor.net_credit := by
  norm_num [isValidCondor, simulate_iron_condor, runPath, earningsRuleFires,
    estimatePositionValue, estimateExitCost, calculateExpirationValue, hadEarningsFlag,
    Contract.dte, Contract.mid, IronCondor.net_credit, IronCondor.max_profit,
    IronCondor.max_loss, IronCondor.max_loss_put_side, IronCondor.max_loss_call_side,
    IronCondor.put_side_width, IronCondor.call_side_width, defaultExitRule,
    spyCondor, spyShortPut, spyLongPut, spyShortCall, spyLongCall]

/-! ## Claims about the performance aggregator -/

/-- `calculate_metrics` reports the input length as `total_trades`
(0 for the empty input). -/
theorem calculate_metrics_total_trades (rs : List BacktestResult) :
    (calculate_metrics rs).total_trades = rs.length := by
  by_cases h : rs = []
  · simp [calculate_metrics, h]
  · simp only [calculate_metrics, if_neg h]

/-- On nonempty input the aggregated Sortino ratio is
`_calculate_sortino_ratio` of the per-trade returns. -/
theorem calculate_metrics_sortino (rs : List BacktestResult) (h : rs ≠ []) :
    (calculate_metrics rs).sortino_ratio =
      calculateSortinoRatio (rs.map fun r => r.return_pct) 0 := by
  simp only [calculate_metrics, if_neg h]

/-- C8 (amended).  For every collection of at least two Simulated
Outcomes with no negative per-trade return, the aggregator's Sortino
ratio is exactly the capped sentinel 10.0 (returned before any
division is attempted). -/
theorem sortino_capped_without_losses (rs : List BacktestResult)
    (hlen : 2 ≤ rs.length) (hpos : ∀ r ∈ rs, 0 ≤ r.return_pct) :
    (calculate_metrics rs).sortino_ratio = 10 := by
  have hne : rs ≠ [] := by
    intro h; rw [h] at hlen; exact absurd hlen (by norm_num)
  rw [calculate_metrics_sortino rs hne]
  have hlen2 : ¬ (rs.map fun r => r.return_pct).length < 2 := by
    rw [List.length_map]; omega
  have hfilter : (rs.map fun r => r.return_pct).filter (fun r => decide (r < 0)) = [] := by
    rw [List.filter_eq_nil_iff]
    intro a ha
    obtain ⟨r, hr, rfl⟩ := List.mem_map.mp ha
    simpa using not_lt.mpr (hpos r hr)
  simp only [calculateSortinoRatio, if_neg hlen2, hfilter, ite_true, eq_self_iff_true]

/-- A simulated winner: P&L 3/2 on max loss 2, return 75%. -/
def winningOutcome : BacktestResult :=
  ⟨spyCondor, 5, 20, .profit_target, 3, 3/2, 3/2, 3, 2, 75, 15, true, false⟩

/-- Witness for the amended C8: two copies of `winningOutcome` (no
negative return) aggregate to Sortino exactly 10. -/
theorem sortino_capped_without_losses_witness :
    (calculate_metrics [winningOutcome, winningOutcome]).sortino_ratio = 10 :=
  sortino_capped_without_losses [winningOutcome, winningOutcome]
    (by norm_num)
    (by norm_num [List.forall_mem_cons, winningOutcome])

/-- Counterexample to C8 as stated ("every non-empty collection"): the
singleton collection `[winningOutcome]` has no negative return, yet the
Sortino ratio is the fewer-than-two-samples default 0.0, not the capped
sentinel 10.0. -/
theorem sortino_singleton_counterexample :
    (∀ r ∈ [winningOutcome], ¬ r.return_pct < 0) ∧
    [winningOutcome] ≠ [] ∧
    (calculate_metrics [winningOutcome]).sortino_ratio = 0 ∧
    ¬ (calculate_metrics [winningOutcome]).sortino_ratio = 10 := by
  refine ⟨by norm_num [winningOutcome], by simp, ?_, ?_⟩ <;>
  · rw [calculate_metrics_sortino [winningOutcome] (by simp)]
    norm_num [calculateSortinoRatio]

/-! ## Claims about the earnings-edge analyzer -/

/-- The three `_categorize_results` groups cover the input: their
lengths sum to the input length. -/
theorem categorize_length_sum (rs : List BacktestResult) (today : ℤ) :
    (categorizeResults rs today).1.length + (categorizeResults rs today).2.1.length +
      (categorizeResults rs today).2.2.length = rs.length := by
  simp only [categorizeResults]
  induction rs with
  | nil => rfl
  | cons r t ih =>
    by_cases hb : r.had_earnings
    · rw [List.filter_cons_of_pos (by simp [hb]),
        List.filter_cons_of_neg (by simp [hb]),
        List.filter_cons_of_neg (by simp [hb])]
      simp only [List.length_cons]
      omega
    · by_cases hd : 0 < r.iron_condor.short_put.dte today
      · rw [List.filter_cons_of_neg (by simp [hb]),
          List.filter_cons_of_pos (by simp [hb, hd]),
          List.filter_cons_of_neg (by simp [hb, not_le.mpr hd])]
        simp only [List.length_cons]
        omega
      · rw [List.filter_cons_of_neg (by simp [hb]),
          List.filter_cons_of_neg (by simp [hb, hd]),
          List.filter_cons_of_pos (by simp [hb, not_lt.mp hd])]
        simp only [List.length_cons]
        omega

/-- C3 (amended).  The analyzer partitions the outcomes into *three*
groups — had-earnings, remainder with positive short-put DTE, and
remainder with nonpositive short-put DTE — computes a Performance
Summary for each of the three, and runs the significance test on the
per-trade returns of the first two groups only (outcomes of the third
group feed no test). -/
theorem analyzer_three_way_partition (rs : List BacktestResult) (today : ℤ) :
    (∀ r ∈ rs,
      (r ∈ (categorizeResults rs today).1 ↔ r.had_earnings = true) ∧
      (r ∈ (categorizeResults rs today).2.1 ↔
        r.had_earnings = false ∧ 0 < r.iron_condor.short_put.dte today) ∧
      (r ∈ (categorizeResults rs today).2.2 ↔
        r.had_earnings = false ∧ r.iron_condor.short_put.dte today ≤ 0)) ∧
    (categorizeResults rs today).1.length + (categorizeResults rs today).2.1.length +
      (categorizeResults rs today).2.2.length = rs.length ∧
    (analyze rs today).pre_earnings = calculate_metrics (categorizeResults rs today).1 ∧
    (analyze rs today).post_earnings = calculate_metrics (categorizeResults rs today).2.1 ∧
    (analyze rs today).no_earnings = calculate_metrics (categorizeResults rs today).2.2 ∧
    (analyze rs today).is_significant =
      (tTestReturns ((categorizeResults rs today).2.1.map fun r => r.return_pct)
        ((categorizeResults rs today).1.map fun r => r.return_pct)).1 ∧
    (analyze rs today).p_value =
      (tTestReturns ((categorizeResults rs today).2.1.map fun r => r.return_pct)
        ((categorizeResults rs today).1.map fun r => r.return_pct)).2 := by
  refine ⟨fun r hr => ⟨?_, ?_, ?_⟩, categorize_length_sum rs today, rfl, rfl, rfl, rfl, rfl⟩
  · simp only [categorizeResults, List.mem_filter]
    exact ⟨fun h => h.2, fun h => ⟨hr, h⟩⟩
  · simp only [categorizeResults, List.mem_filter, Bool.and_eq_true, Bool.not_eq_true',
      decide_eq_true_eq]
    exact ⟨fun h => h.2, fun h => ⟨hr, h⟩⟩
  · simp only [categorizeResults, List.mem_filter, Bool.and_eq_true, Bool.not_eq_true',
      decide_eq_true_eq]
    exact ⟨fun h => h.2, fun h => ⟨hr, h⟩⟩

/-- An outcome with `had_earnings = false` whose short put has already
expired relative to the evaluation day 100 (`dte = 35 - 100 ≤ 0`). -/
def orphanOutcome : BacktestResult :=
  ⟨spyCondor, 5, 20, .min_dte, 3, 3/4, 9/4, 3, 2, 225/2, 15, true, false⟩

/-- Counterexample to C3 as stated: on the evaluation day 100 the
outcome `orphanOutcome` (no earnings, expired short put) is placed in
the third, never-tested group; both tested partitions are empty, so the
outcome belongs to neither of the two tested groups and the partition
is not two-way. -/
theorem analyzer_orphan_outcome_counterexample :
    orphanOutcome.had_earnings = false ∧
    (categorizeResults [orphanOutcome] 100).1 = [] ∧
    (categorizeResults [orphanOutcome] 100).2.1 = [] ∧
    (categorizeResults [orphanOutcome] 100).2.2 = [orphanOutcome] := by
  norm_num [categorizeResults, List.filter, orphanOutcome, Contract.dte,
    spyCondor, spyShortPut]

/-- Witness for the amended C3: at the concrete input `[orphanOutcome]`
the outcome lands in the third group and the analyzer's significance
fields are those of the t-test on the (here empty) tested groups. -/
theorem analyzer_three_way_partition_witness :
    orphanOutcome ∈ (categorizeResults [orphanOutcome] 100).2.2 ∧
    (analyze [orphanOutcome] 100).p_value =
      (tTestReturns ((categorizeResults [orphanOutcome] 100).2.1.map fun r => r.return_pct)
        ((categorizeResults [orphanOutcome] 100).1.map fun r => r.return_pct)).2 := by
  have h := analyzer_three_way_partition [orphanOutcome] 100
  refine ⟨((h.1 orphanOutcome (by simp)).2.2).mpr ?_, h.2.2.2.2.2.2⟩
  constructor
  · norm_num [orphanOutcome]
  · norm_num [orphanOutcome, spyCondor, spyShortPut, Contract.dte]

/-- C7 (amended).  When either tested partition has fewer than 10
trades the analyzer selects an "insufficient data" recommendation —
but the significance test is still executed, and its flag and p-value
are returned in the comparison (the recommendation merely ignores
them). -/
theorem insufficient_sample_recommendation (rs : List BacktestResult) (today : ℤ)
    (hsmall : (categorizeResults rs today).1.length < 10 ∨
              (categorizeResults rs today).2.1.length < 10) :
    ((analyze rs today).recommendation = Recommendation.insufficient_no_trades ∨
     (analyze rs today).recommendation = Recommendation.insufficient_small_groups) ∧
    (analyze rs today).is_significant =
      (tTestReturns ((categorizeResults rs today).2.1.map fun r => r.return_pct)
        ((categorizeResults rs today).1.map fun r => r.return_pct)).1 ∧
    (analyze rs today).p_value =
      (tTestReturns ((categorizeResults rs today).2.1.map fun r => r.return_pct)
        ((categorizeResults rs today).1.map fun r => r.return_pct)).2 := by
  refine ⟨?_, rfl, rfl⟩
  have hrec : (analyze rs today).recommendation =
      generateRecommendation (calculate_metrics (categorizeResults rs today).1)
        (calculate_metrics (categorizeResults rs today).2.1)
        (tTestReturns ((categorizeResults rs today).2.1.map fun r => r.return_pct)
          ((categorizeResults rs today).1.map fun r => r.return_pct)).1 := rfl
  rw [hrec]
  simp only [generateRecommendation, calculate_metrics_total_trades]
  by_cases hz : (categorizeResults rs today).2.1.length = 0 ∧
      (categorizeResults rs today).1.length = 0
  · rw [if_pos hz]; exact Or.inl rfl
  · rw [if_neg hz, if_pos (hsmall.elim Or.inr Or.inl)]
    exact Or.inr rfl

/-- An outcome closed by the earnings rule (`had_earnings = true`). -/
def earningsOutcome : BacktestResult :=
  ⟨spyCondor, 5, 8, .earnings, 3, 9/10, 21/10, 3, 2, 105, 3, true, true⟩

/-- Witness for the amended C7 at the singleton `[earningsOutcome]`
(1 trade in the had-earnings partition, 0 in the other). -/
theorem insufficient_sample_recommendation_witness :
    ((analyze [earningsOutcome] 0).recommendation = Recommendation.insufficient_no_trades ∨
     (analyze [earningsOutcome] 0).recommendation = Recommendation.insufficient_small_groups) ∧
    (analyze [earningsOutcome] 0).is_significant =
      (tTestReturns (((categorizeResults [earningsOutcome] 0).2.1).map fun r => r.return_pct)
        (((categorizeResults [earningsOutcome] 0).1).map fun r => r.return_pct)).1 ∧
    (analyze [earningsOutcome] 0).p_value =
      (tTestReturns (((categorizeResults [earningsOutcome] 0).2.1).map fun r => r.return_pct)
        (((categorizeResults [earningsOutcome] 0).1).map fun r => r.return_pct)).2 :=
  insufficient_sample_recommendation [earningsOutcome] 0
    (Or.inl (by norm_num [categorizeResults, List.filter, earningsOutcome]))

/-- A no-earnings trade with the given return percentage. -/
def postTrade (ret : ℚ) : BacktestResult :=
  ⟨spyCondor, 5, 20, .profit_target, 3, 0, 3, 3, 2, ret, 15, true, false⟩

/-- A had-earnings trade with the given return percentage. -/
def preTrade (ret : ℚ) : BacktestResult :=
  ⟨spyCondor, 5, 20, .earnings, 3, 0, 3, 3, 2, ret, 15, true, true⟩

/-- Four no-earnings and four had-earnings trades — fewer than 10 in
both partitions — whose return samples differ sharply. -/
def mixedOutcomes : List BacktestResult :=
  [postTrade 100, postTrade 100, postTrade 100, postTrade 101,
   preTrade 0, preTrade 0, preTrade 0, preTrade 1]

set_option maxHeartbeats 2000000 in
/-- Counterexample to C7 as stated ("does not run the significance
test"): with 4 trades in each partition the recommendation is the
insufficient-data one, yet the returned comparison carries
`is_significant = true` and `p_value = 0.02` — the t-test ran on the
two small samples and its output is reported. -/
theorem insufficient_sample_test_still_runs_counterexample :
    (categorizeResults mixedOutcomes 0).1.length = 4 ∧
    (categorizeResults mixedOutcomes 0).2.1.length = 4 ∧
    (analyze mixedOutcomes 0).recommendation = Recommendation.insufficient_small_groups ∧
    (analyze mixedOutcomes 0).is_significant = true ∧
    (analyze mixedOutcomes 0).p_value = 1/50 := by
  have hcat : categorizeResults mixedOutcomes 0 =
      ([preTrade 0, preTrade 0, preTrade 0, preTrade 1],
       [postTrade 100, postTrade 100, postTrade 100, postTrade 101],
       []) := by
    norm_num [categorizeResults, List.filter, mixedOutcomes, postTrade, preTrade,
      Contract.dte, spyCondor, spyShortPut]
  have hmaps : ((categorizeResults mixedOutcomes 0).2.1.map fun r => r.return_pct) =
        [100, 100, 100, 101] ∧
      ((categorizeResults mixedOutcomes 0).1.map fun r => r.return_pct) =
        [(0:ℚ), 0, 0, 1] := by
    rw [hcat]; norm_num [postTrade, preTrade]
  have httest : tTestReturns [100, 100, 100, 101] [(0:ℚ), 0, 0, 1] = (true, 1/50) := by
    norm_num [tTestReturns, approximatePValueSq]
    simp
  have hsig : (analyze mixedOutcomes 0).is_significant =
      (tTestReturns ((categorizeResults mixedOutcomes 0).2.1.map fun r => r.return_pct)
        ((categorizeResults mixedOutcomes 0).1.map fun r => r.return_pct)).1 := rfl
  have hp : (analyze mixedOutcomes 0).p_value =
      (tTestReturns ((categorizeResults mixedOutcomes 0).2.1.map fun r => r.return_pct)
        ((categorizeResults mixedOutcomes 0).1.map fun r => r.return_pct)).2 := rfl
  have hrec : (analyze mixedOutcomes 0).recommendation =
      generateRecommendation (calculate_metrics (categorizeResults mixedOutcomes 0).1)
        (calculate_metrics (categorizeResults mixedOutcomes 0).2.1)
        (tTestReturns ((categorizeResults mixedOutcomes 0).2.1.map fun r => r.return_pct)
          ((categorizeResults mixedOutcomes 0).1.map fun r => r.return_pct)).1 := rfl
  refine ⟨by rw [hcat]; rfl, by rw [hcat]; rfl, ?_, ?_, ?_⟩
  · rw [hrec, hmaps.1, hmaps.2, httest]
    simp only [generateRecommendation, calculate_metrics_total_trades]
    rw [hcat]
    norm_num
  · rw [hsig, hmaps.1, hmaps.2, httest]
  · rw [hp, hmaps.1, hmaps.2, httest]

end CondorHunter
